import Mathlib

/-!
Verification development for the Perpetua repository: a turn-taking
dialogue between two model-backed agents, with a rate-governed,
retrying completion client and an operator-controlled turn scheduler.

The definitions below are shallow embeddings of the source files:
* `RateWindow` / `Hyperbolic` — the axios-based client variant that keeps
  a rolling window of request timestamps, computes admission waits, and
  retries HTTP 429 failures with capped exponential backoff.
* `Api` — the plain axios client in `src/lib/api.ts` (no window, no retry).
* `Gemini` — the Gemini-based client variant, which rejects empty text and
  classifies retryable failures by substrings of the error message.
* `Scheduler` — the React page component (the second, ref-based variant),
  embedded as explicit state-transition functions.

Asynchronous JavaScript is modelled cooperatively: one invocation of an
async function is split at its `await` points; the suspended part becomes
a separate transition (`resolveCall`), and an `AbortSignal` becomes a
boolean observed at the source's explicit check sites.  Times are `Int`
milliseconds (`Date.now()` values); machine integers never overflow at
the magnitudes involved, so no wrap-around modelling is needed.
-/

/-- The result type both clients resolve with: `error` is the optional
error string (`undefined` in JS becomes `none`). -/
structure DialogueResponse where
  text : String
  error : Option String
deriving Repr, DecidableEq

namespace RateWindow

/-- `RATE_LIMIT = 60` requests per minute. -/
def RATE_LIMIT : Nat := 60

/-- `WINDOW_MS = 60 * 1000`. -/
def WINDOW_MS : Int := 60 * 1000

/-- `EFFECTIVE_RATE_LIMIT = Math.floor(RATE_LIMIT * BUFFER_FACTOR)` with
`BUFFER_FACTOR = 0.8`; the double-precision product rounds to exactly 48,
so the floor is 48. -/
def EFFECTIVE_RATE_LIMIT : Nat := 48

/-- `MIN_REQUEST_INTERVAL = Math.ceil(WINDOW_MS / EFFECTIVE_RATE_LIMIT)`:
60000 / 48 = 1250 exactly. -/
def MIN_REQUEST_INTERVAL : Int := 1250

/-- `cleanRequestWindow`: shift entries from the front while the head is
strictly older than `now - WINDOW_MS`.  The JS window is a queue whose
front holds the oldest entries, so the in-place shifting loop is a
`dropWhile` on the front of the list. -/
def cleanRequestWindow (now : Int) (requestTimes : List Int) : List Int :=
  requestTimes.dropWhile (fun t => decide (t < now - WINDOW_MS))

/-- `canMakeRequest`: clean, then compare occupancy with the effective
limit. -/
def canMakeRequest (now : Int) (requestTimes : List Int) : Bool :=
  (cleanRequestWindow now requestTimes).length < EFFECTIVE_RATE_LIMIT

/-- `getWaitTime`: clean the window; `0` when empty; when the effective
limit is reached, wait until the oldest entry leaves the window plus a
1000 ms buffer; otherwise enforce the minimum spacing from the most
recent entry plus a 100 ms buffer, clamped at zero. -/
def getWaitTime (now : Int) (requestTimes : List Int) : Int :=
  match cleanRequestWindow now requestTimes with
  | [] => 0
  | oldest :: rest =>
    if EFFECTIVE_RATE_LIMIT ≤ (oldest :: rest).length then
      oldest + WINDOW_MS - now + 1000
    else
      let lastRequest := rest.getLastD oldest
      let timeSinceLastRequest := now - lastRequest
      max 0 (MIN_REQUEST_INTERVAL - timeSinceLastRequest + 100)

/-- `getRetryDelay`: `min(1000 * 2^retryCount, 10000)`. -/
def getRetryDelay (retryCount : Nat) : Nat :=
  min (1000 * 2 ^ retryCount) 10000

end RateWindow

namespace Hyperbolic

open RateWindow

/-- Outcome of one network attempt, as the axios client's catch logic
classifies it: a successful response with extracted text content, an
abort-driven cancellation (`axios.isCancel`), an HTTP 429 with an
optional `retry-after` header (whole seconds), or any other thrown
error. -/
inductive Outcome where
  | ok (content : String)
  | canceled
  | http429 (retryAfter : Option Nat)
  | otherError
deriving Repr, DecidableEq

/-- Environment of one attempt: `tCheck` is the clock at the rate-limit
check, `tSend` the `Date.now()` recorded into the window at send time.
`abortedBefore` is the signal's state at the pre-send checks (entry and
after the rate-limit wait — the signal is monotone, so one observation
covers both), `abortedAfter` its state at the post-response check. -/
structure AttemptEnv where
  tCheck : Int
  tSend : Int
  abortedBefore : Bool
  abortedAfter : Bool
  outcome : Outcome
deriving Repr

/-- Result of a whole `generateResponse` call: the resolved value, the
final request window, and the backoff delays actually waited between
retries (in ms), in order. -/
structure GenResult where
  resp : DialogueResponse
  window : List Int
  retryDelays : List Nat
deriving Repr, DecidableEq

/-- The cancelled result every abort path resolves with. -/
def cancelResp : DialogueResponse := { text := "", error := some "Generation cancelled" }

/-- The part_000 `generateResponse`: check abort; clean the window (via
`canMakeRequest`/`getWaitTime`) and wait if needed; check abort; push the
send timestamp; then dispatch on the attempt's outcome.  On any thrown
error the inner catch erases the pushed timestamp before the outer catch
classifies; HTTP 429 retries with `max(retry-after, backoff)` while
`retryCount < 3`. -/
def generateResponse (env : Nat → AttemptEnv) (retryCount : Nat)
    (requestTimes : List Int) : GenResult :=
  let e := env retryCount
  if e.abortedBefore then
    { resp := cancelResp, window := requestTimes, retryDelays := [] }
  else
    let w1 := cleanRequestWindow e.tCheck requestTimes
    let w2 := w1 ++ [e.tSend]
    match e.outcome with
    | .ok content =>
      if e.abortedAfter then
        { resp := cancelResp, window := w2, retryDelays := [] }
      else
        { resp := { text := content, error := none }, window := w2, retryDelays := [] }
    | .canceled =>
      { resp := cancelResp, window := w2.erase e.tSend, retryDelays := [] }
    | .http429 retryAfter =>
      let w3 := w2.erase e.tSend
      if h : retryCount < 3 then
        let waitTime := max (retryAfter.getD 0 * 1000) (getRetryDelay retryCount)
        let r := generateResponse env (retryCount + 1) w3
        { resp := r.resp, window := r.window, retryDelays := waitTime :: r.retryDelays }
      else
        { resp := { text := "", error := some "Too many requests. Please wait a moment before trying again." },
          window := w3, retryDelays := [] }
    | .otherError =>
      { resp := { text := "", error := some "Failed to generate response. Please try again." },
        window := w2.erase e.tSend, retryDelays := [] }
termination_by 4 - retryCount
decreasing_by omega

end Hyperbolic

namespace Api

/-- What the single axios attempt in `src/lib/api.ts` can do: produce the
extracted `choices[0].message.content` string, or throw (network error,
missing response shape, …). -/
inductive ApiOutcome where
  | ok (content : String)
  | exn
deriving Repr, DecidableEq

/-- The `src/lib/api.ts` `generateResponse`: return the extracted content
with no error field on success — even when the content is the empty
string — and a generic error result when anything throws. -/
def generateResponse : ApiOutcome → DialogueResponse
  | .ok content => { text := content, error := none }
  | .exn => { text := "", error := some "Failed to generate response. Please try again." }

end Api

namespace Gemini

open RateWindow

/-- `leadMatch p cs`: `p` matches the front of `cs` character by
character. -/
def leadMatch : List Char → List Char → Bool
  | [], _ => true
  | _ :: _, [] => false
  | p :: ps, c :: cs => p == c && leadMatch ps cs

/-- `occursIn p cs`: `p` occurs contiguously somewhere in `cs`. -/
def occursIn (p : List Char) : List Char → Bool
  | [] => leadMatch p []
  | c :: cs => leadMatch p (c :: cs) || occursIn p cs

/-- `String.includes` of the source, as a substring test on character
lists. -/
def strOccursIn (pat s : String) : Bool :=
  occursIn pat.toList s.toList

/-- The Gemini variant's retryable-error classification:
`error.message.includes` any of rate / timeout / network / internal. -/
def isRetryableError (message : String) : Bool :=
  strOccursIn "rate" message || strOccursIn "timeout" message ||
    strOccursIn "network" message || strOccursIn "internal" message

/-- The user-visible error string chosen from the thrown message. -/
def errorMessageFor (message : String) : String :=
  if strOccursIn "rate" message then
    "Too many requests. Please wait a moment before trying again."
  else if strOccursIn "timeout" message then
    "Request timed out. Retrying..."
  else
    "Failed to generate response. Please try again."

/-- Outcome of one Gemini attempt: text extracted from the response, or a
thrown error carrying its `message` string. -/
inductive Outcome where
  | ok (content : String)
  | errMsg (message : String)
deriving Repr, DecidableEq

/-- Per-attempt environment, as for the axios variant; `abortedLate` is
the signal state at both post-response checks (in the success path and at
the top of the outer catch — temporally after the network call, and the
signal is monotone). -/
structure AttemptEnv where
  tCheck : Int
  tSend : Int
  abortedBefore : Bool
  abortedLate : Bool
  outcome : Outcome
deriving Repr

/-- The part_004 Gemini `generateResponse`: same rolling-window admission
as the axios variant; an empty extracted text throws
"Empty response from Gemini"; the inner catch erases the pushed
timestamp; retryable message classes retry with backoff while
`retryCount < 5`; otherwise the message is mapped to a user-visible
error string. -/
def generateResponse (env : Nat → AttemptEnv) (retryCount : Nat)
    (requestTimes : List Int) : Hyperbolic.GenResult :=
  let e := env retryCount
  if e.abortedBefore then
    { resp := Hyperbolic.cancelResp, window := requestTimes, retryDelays := [] }
  else
    let w1 := cleanRequestWindow e.tCheck requestTimes
    let w2 := w1 ++ [e.tSend]
    let thrown := fun (message : String) =>
      let w3 := w2.erase e.tSend
      if e.abortedLate then
        { resp := Hyperbolic.cancelResp, window := w3, retryDelays := [] }
      else if h : isRetryableError message ∧ retryCount < 5 then
        let backoffDelay := getRetryDelay retryCount
        let r := generateResponse env (retryCount + 1) w3
        { resp := r.resp, window := r.window, retryDelays := backoffDelay :: r.retryDelays }
      else
        ({ resp := { text := "", error := some (errorMessageFor message) },
           window := w3, retryDelays := [] } : Hyperbolic.GenResult)
    match e.outcome with
    | .ok content =>
      if e.abortedLate then
        { resp := Hyperbolic.cancelResp, window := w2, retryDelays := [] }
      else if content = "" then
        thrown "Empty response from Gemini"
      else
        { resp := { text := content, error := none }, window := w2, retryDelays := [] }
    | .errMsg message => thrown message
termination_by 6 - retryCount
decreasing_by simp_wf; omega

end Gemini

namespace Scheduler

/-- `'agent1' | 'agent2'`. -/
inductive Agent where
  | agent1
  | agent2
deriving Repr, DecidableEq

/-- A transcript entry. -/
structure Message where
  text : String
  agent : Agent
  timestamp : Int
deriving Repr, DecidableEq

/-- One invocation of the client's `generateResponse`, suspended at its
`await`: which agent it speaks for, the prompt and persona key it was
issued with, whether its `AbortController` has been aborted, and the
`isPaused` value its enclosing closure captured (always `false`, since
the guard requires it — kept for fidelity to the post-`await` check). -/
structure Call where
  agent : Agent
  prompt : String
  persona : String
  aborted : Bool
  closurePaused : Bool
deriving Repr, DecidableEq, BEq

/-- The component state: React state (`messages`, `isLoading`,
`isPaused`, `error`, the two selected persona keys) plus the refs
(`timeoutRef` — the armed inter-turn timer carrying the message the
callback will continue from and the closure's captured `isPaused`;
`isGeneratingRef`; `isMountedRef`) and the set of not-yet-resolved
`generateResponse` invocations (newest first; every displaced one has
been aborted). -/
structure SchedState where
  messages : List Message
  isLoading : Bool
  isPaused : Bool
  error : Option String
  agent1Persona : String
  agent2Persona : String
  timer : Option (Message × Bool)
  generating : Bool
  pending : List Call
  mounted : Bool
deriving Repr, DecidableEq

/-- The five seed prompts. -/
def philosophicalPrompts : List String :=
  ["What is the nature of consciousness?",
   "Does free will truly exist?",
   "What is the meaning of life?",
   "How do we define reality?",
   "What is the relationship between mind and matter?"]

/-- Abort every pending invocation.  The source aborts only the current
`abortControllerRef`, but each displaced invocation was already aborted
when it was displaced, so marking all of them keeps the same aborted
set. -/
def abortAll (pending : List Call) : List Call :=
  pending.map (fun c => { c with aborted := true })

/-- `cleanup`: clear the armed timer, abort the ongoing request and drop
the controller, and clear the generating flag. -/
def cleanup (s : SchedState) : SchedState :=
  { s with timer := none, pending := abortAll s.pending, generating := false }

/-- The turn-ownership computation of `generateNextMessage`:
`isAgent1 = !previousMessage || previousMessage.agent === 'agent2'`. -/
def nextAgent : Option Message → Agent
  | none => .agent1
  | some m => match m.agent with
    | .agent1 => .agent2
    | .agent2 => .agent1

/-- The selected persona key for an agent. -/
def personaOf (s : SchedState) : Agent → String
  | .agent1 => s.agent1Persona
  | .agent2 => s.agent2Persona

/-- The synchronous prefix of `generateNextMessage(previousMessage)`, up
to its `await`: bail out when unmounted, paused, loading or already
generating; otherwise abort any previous controller, create a fresh one,
set the generating and loading flags, clear the error and any armed
timer, and issue the completion call for the agent other than the
previous message's author (`seedIdx` selects the random seed prompt when
there is no previous message). -/
def generateNextMessage (s : SchedState) (previousMessage : Option Message)
    (seedIdx : Nat) : SchedState :=
  if !s.mounted || s.isPaused || s.isLoading || s.generating then s
  else
    let currentAgent := nextAgent previousMessage
    let prompt := match previousMessage with
      | some m => m.text
      | none => philosophicalPrompts.getD (seedIdx % philosophicalPrompts.length) ""
    { s with
      pending := { agent := currentAgent, prompt := prompt,
                   persona := personaOf s currentAgent,
                   aborted := false, closurePaused := s.isPaused } :: abortAll s.pending,
      generating := true, isLoading := true, error := none, timer := none }

/-- What the network can deliver to a suspended call: extracted text, or
a client-level failure carrying the error string the client resolved
with. -/
inductive NetResult where
  | ok (text : String)
  | fail (e : String)
deriving Repr, DecidableEq

/-- The value the client's promise resolves with: the client checks its
signal after the response, so an invocation whose controller was aborted
before resolution resolves to the cancelled result no matter what the
network produced. -/
def clientResult (c : Call) (net : NetResult) : DialogueResponse :=
  if c.aborted then { text := "", error := some "Generation cancelled" }
  else match net with
    | .ok t => { text := t, error := none }
    | .fail e => { text := "", error := some e }

/-- The continuation of `generateNextMessage` after its `await` resolves
for invocation `c` (which leaves the pending set): return early when
unmounted or the closure saw a pause; swallow the cancelled error and
surface any other; on non-empty text append the message and arm the
inter-turn timer; the `finally` block clears the loading (when mounted)
and generating flags. -/
def resolveCall (s : SchedState) (c : Call) (net : NetResult) (now : Int) : SchedState :=
  let s0 := { s with pending := s.pending.erase c }
  let fin := fun (st : SchedState) =>
    if st.mounted then { st with isLoading := false, generating := false }
    else { st with generating := false }
  let r := clientResult c net
  if !s0.mounted || c.closurePaused then fin s0
  else
    match r.error with
    | some e =>
      if e = "Generation cancelled" then fin s0
      else fin { s0 with error := some e }
    | none =>
      if r.text ≠ "" then
        let newMessage : Message := { text := r.text, agent := c.agent, timestamp := now }
        let s1 := { s0 with messages := s0.messages ++ [newMessage] }
        let s2 := if !c.closurePaused && s1.mounted then
            { s1 with timer := some (newMessage, c.closurePaused) }
          else s1
        fin s2
      else fin s0

/-- `handlePauseToggle`: toggling into the paused state runs `cleanup`;
toggling out of it arms a resume timer from the last message (the timer
callback captures the pre-toggle `isPaused`). -/
def handlePauseToggle (s : SchedState) : SchedState :=
  let newPausedState := !s.isPaused
  if newPausedState then { (cleanup s) with isPaused := true }
  else
    match s.messages.getLast? with
    | some m => { s with isPaused := false, timer := some (m, s.isPaused) }
    | none => { s with isPaused := false }

/-- `handleReset`: cleanup, then clear the transcript, pause flag, error
and loading flag. -/
def handleReset (s : SchedState) : SchedState :=
  let s1 := cleanup s
  { s1 with messages := [], isPaused := false, error := none, isLoading := false }

/-- `handlePromptSubmit(prompt)`: a no-op while a call is generating or
loading; otherwise cleanup, append the operator's text as an Agent1
message, and invoke `generateNextMessage` on it. -/
def handlePromptSubmit (s : SchedState) (prompt : String) (now : Int) : SchedState :=
  if s.generating || s.isLoading then s
  else
    let s1 := cleanup s
    let newMessage : Message := { text := prompt, agent := .agent1, timestamp := now }
    let s2 := { s1 with messages := s1.messages ++ [newMessage] }
    generateNextMessage s2 (some newMessage) 0

/-- An armed timer fires: the callback checks the mounted ref and its
closure's captured `isPaused`, then invokes `generateNextMessage` on the
carried message. -/
def timerFire (s : SchedState) (seedIdx : Nat) : SchedState :=
  match s.timer with
  | none => s
  | some (m, closPaused) =>
    let s' := { s with timer := none }
    if s'.mounted && !closPaused then generateNextMessage s' (some m) seedIdx
    else s'

/-- The initial component state. -/
def initialState : SchedState :=
  { messages := [], isLoading := false, isPaused := false, error := none,
    agent1Persona := "optimistic", agent2Persona := "analytical",
    timer := none, generating := false, pending := [], mounted := true }

end Scheduler

/-!  Spec-side definitions.  These follow the specification's words, for
comparison with the definitions embedded from the source. -/

namespace SpecSide

open RateWindow

/-- Modelled from the spec sentence of C5, word for word: evict entries
older than `now - W`; if the window then holds at least `B_eff` entries,
wait until the oldest entry exits the window plus the 1000 ms buffer;
otherwise, if the most recent entry is younger than `S`, wait the
remaining spacing plus the 100 ms buffer; else admit immediately with
zero wait. -/
def claimWaitTime (now : Int) (requestTimes : List Int) : Int :=
  let w := requestTimes.filter (fun t => decide (now - WINDOW_MS ≤ t))
  if EFFECTIVE_RATE_LIMIT ≤ w.length then
    w.headD 0 + WINDOW_MS - now + 1000
  else
    match w.getLast? with
    | none => 0
    | some last =>
      if now - last < MIN_REQUEST_INTERVAL then
        MIN_REQUEST_INTERVAL - (now - last) + 100
      else 0

/-- The amended admission decision: as `claimWaitTime`, except that the
spacing branch waits `max 0 (S - age + 100)` — so a zero wait needs the
most recent entry to be at least `S + 100` ms old, not just `S`. -/
def amendedWaitTime (now : Int) (requestTimes : List Int) : Int :=
  let w := requestTimes.filter (fun t => decide (now - WINDOW_MS ≤ t))
  if EFFECTIVE_RATE_LIMIT ≤ w.length then
    w.headD 0 + WINDOW_MS - now + 1000
  else
    match w.getLast? with
    | none => 0
    | some last => max 0 (MIN_REQUEST_INTERVAL - (now - last) + 100)

/-- The alternation predicate of the turn-alternation property: no two
consecutive transcript messages share their `agent`. -/
def messagesAlternate : List Scheduler.Message → Bool
  | m1 :: m2 :: rest => (m1.agent ≠ m2.agent : Bool) && messagesAlternate (m2 :: rest)
  | _ => true

/-- The pending invocations whose controllers have not been aborted —
the "concurrently unresolved" completion attempts of the
at-most-one-in-flight property. -/
def liveCalls (s : Scheduler.SchedState) : List Scheduler.Call :=
  s.pending.filter (fun c => !c.aborted)

end SpecSide

/-!  Concrete fixtures used by witnesses and counterexamples. -/

namespace Fixtures

open Scheduler

/-- The call `generateNextMessage initialState none 0` issues. -/
def call1 : Call :=
  { agent := .agent1, prompt := "What is the nature of consciousness?",
    persona := "optimistic", aborted := false, closurePaused := false }

/-- A state mid-generation: the opening turn's call is in flight. -/
def generating1 : SchedState := generateNextMessage initialState none 0

/-- The state after the opening call resolves with the text "A". -/
def afterA : SchedState := resolveCall generating1 call1 (.ok "A") 1

/-- `afterA`, then the operator submits "B": the transcript ends with two
consecutive Agent1 messages. -/
def afterAB : SchedState := handlePromptSubmit afterA "B" 2

/-- `call1` as it stands after its controller was aborted. -/
def call1Aborted : Call := { call1 with aborted := true }

end Fixtures

/-!  Shared helper lemmas. -/

/-- Erasing a just-appended element returns a permutation of the original
list (the element erased may be an earlier duplicate, but the multiset is
restored). -/
theorem erase_append_singleton_perm (w : List Int) (t : Int) :
    ((w ++ [t]).erase t).Perm w := by
  have h1 : (w ++ [t]).Perm (t :: w) := List.perm_append_singleton t w
  have h2 := h1.erase t
  simpa using h2

/-- `getLast?` of a cons in terms of `getLastD` over the tail. -/
theorem getLast?_cons_getLastD : ∀ (r : List Int) (o : Int),
    (o :: r).getLast? = some (r.getLastD o)
  | [], _ => rfl
  | a :: r, o => by
    rw [List.getLast?_cons_cons, List.getLastD_cons]
    exact getLast?_cons_getLastD r a

/-- On a list sorted ascending, dropping the old entries from the front
is the same as filtering them out everywhere. -/
theorem sorted_dropWhile_eq_filter (b : Int) (ts : List Int)
    (h : List.Sorted (· ≤ ·) ts) :
    ts.dropWhile (fun t => decide (t < b)) = ts.filter (fun t => decide (b ≤ t)) := by
  induction ts with
  | nil => simp
  | cons a rest ih =>
    rw [List.sorted_cons] at h
    obtain ⟨ha, hrest⟩ := h
    by_cases hab : a < b
    · have hnb : ¬ b ≤ a := not_le.mpr hab
      simp [List.dropWhile_cons, List.filter_cons, hab, hnb, ih hrest]
    · have hba : b ≤ a := not_lt.mp hab
      have hall : rest.filter (fun t => decide (b ≤ t)) = rest :=
        List.filter_eq_self.mpr fun x hx => decide_eq_true (le_trans hba (ha x hx))
      simp [List.dropWhile_cons, List.filter_cons, hab, hba, hall]

/-!  Claim C5. -/

/-- Claim C5 as stated is false at the concrete input `now = 1300`,
window `[0]`: the window survives eviction, holds fewer than 48 entries,
and its most recent entry is 1300 ms old — at least `S = 1250`, so the
claim admits with zero wait — yet the code computes
`max 0 (1250 - 1300 + 100) = 50`. -/
theorem c5_counterexample :
    RateWindow.getWaitTime 1300 [0] = 50 ∧ SpecSide.claimWaitTime 1300 [0] = 0 := by
  constructor <;> decide

/-- Claim C5, amended: on any chronologically ordered window, the
admission decision evicts entries older than `now - W`, waits
`oldest + W - now + 1000` once the effective limit (48) is reached, and
otherwise waits `max 0 (S - age + 100)` where `age` is the age of the
most recent entry — so a request is admitted with zero wait only when
the most recent entry is at least `S + 100` ms old. -/
theorem c5_amended_admission (now : Int) (ts : List Int)
    (h : List.Sorted (· ≤ ·) ts) :
    RateWindow.getWaitTime now ts = SpecSide.amendedWaitTime now ts := by
  unfold RateWindow.getWaitTime SpecSide.amendedWaitTime RateWindow.cleanRequestWindow
  rw [sorted_dropWhile_eq_filter (now - RateWindow.WINDOW_MS) ts h]
  cases hw : ts.filter (fun t => decide (now - RateWindow.WINDOW_MS ≤ t)) with
  | nil => simp [RateWindow.EFFECTIVE_RATE_LIMIT]
  | cons o r =>
    by_cases hlen : RateWindow.EFFECTIVE_RATE_LIMIT ≤ r.length + 1
    · simp [hlen]
    · simp [hlen, getLast?_cons_getLastD]

/-- Witness for the amended C5 at a concrete sorted window. -/
theorem c5_amended_admission_witness :
    List.Sorted (· ≤ ·) ([0, 100] : List Int)
    ∧ RateWindow.getWaitTime 1300 [0, 100] = SpecSide.amendedWaitTime 1300 [0, 100] :=
  ⟨by decide, c5_amended_admission 1300 [0, 100] (by decide)⟩

/-!  Claim C6. -/

/-- Claim C6: when an attempt's network call fails (here: HTTP 429 and a
retry follows), the timestamp recorded for it is removed from the window
before the subsequent admission decision — the retry continues from a
window `w'` that is a permutation of the cleaned pre-record window, so
the failed request contributes nothing to the occupancy later admit
checks see. -/
theorem c6_failed_request_releases_budget
    (env : Nat → Hyperbolic.AttemptEnv) (rc : Nat) (w : List Int) (hint : Option Nat)
    (hab : (env rc).abortedBefore = false)
    (hout : (env rc).outcome = Hyperbolic.Outcome.http429 hint)
    (hrc : rc < 3) :
    ∃ w', w'.Perm (RateWindow.cleanRequestWindow (env rc).tCheck w)
      ∧ Hyperbolic.generateResponse env rc w =
        { resp := (Hyperbolic.generateResponse env (rc + 1) w').resp,
          window := (Hyperbolic.generateResponse env (rc + 1) w').window,
          retryDelays := max (hint.getD 0 * 1000) (RateWindow.getRetryDelay rc)
            :: (Hyperbolic.generateResponse env (rc + 1) w').retryDelays } := by
  refine ⟨((RateWindow.cleanRequestWindow (env rc).tCheck w) ++ [(env rc).tSend]).erase (env rc).tSend,
    erase_append_singleton_perm _ _, ?_⟩
  conv_lhs => rw [Hyperbolic.generateResponse.eq_def]
  simp [hab, hout, hrc]

/-- Witness for C6: one 429 attempt at retry count 0 over the window
`[5]`. -/
theorem c6_failed_request_releases_budget_witness :
    ∃ w', w'.Perm (RateWindow.cleanRequestWindow 7 [5])
      ∧ Hyperbolic.generateResponse
          (fun _ => { tCheck := 7, tSend := 9, abortedBefore := false,
                      abortedAfter := false, outcome := .http429 none }) 0 [5] =
        { resp := (Hyperbolic.generateResponse
            (fun _ => { tCheck := 7, tSend := 9, abortedBefore := false,
                        abortedAfter := false, outcome := .http429 none }) 1 w').resp,
          window := (Hyperbolic.generateResponse
            (fun _ => { tCheck := 7, tSend := 9, abortedBefore := false,
                        abortedAfter := false, outcome := .http429 none }) 1 w').window,
          retryDelays := max ((Option.none).getD 0 * 1000) (RateWindow.getRetryDelay 0)
            :: (Hyperbolic.generateResponse
                (fun _ => { tCheck := 7, tSend := 9, abortedBefore := false,
                            abortedAfter := false, outcome := .http429 none }) 1 w').retryDelays } :=
  c6_failed_request_releases_budget
    (fun _ => { tCheck := 7, tSend := 9, abortedBefore := false,
                abortedAfter := false, outcome := .http429 none }) 0 [5] none rfl rfl (by decide)

/-!  Claim C8. -/

/-- Claim C8: for every attempt number `n` for which a retry follows
(`n < 3`) and every 429 failure with optional retry-after hint, the
delay waited before the next retry is the maximum of the hint converted
to milliseconds and `min(1000 * 2^n, 10000)`. -/
theorem c8_retry_delay_formula
    (env : Nat → Hyperbolic.AttemptEnv) (rc : Nat) (w : List Int) (hint : Option Nat)
    (hrc : rc < 3)
    (hab : (env rc).abortedBefore = false)
    (hout : (env rc).outcome = Hyperbolic.Outcome.http429 hint) :
    (Hyperbolic.generateResponse env rc w).retryDelays.head? =
      some (max (hint.getD 0 * 1000) (min (1000 * 2 ^ rc) 10000)) := by
  conv_lhs => rw [Hyperbolic.generateResponse.eq_def]
  simp [hab, hout, hrc, RateWindow.getRetryDelay]

/-- Witness for C8: attempt 1 with a 5-second server hint waits
`max 5000 2000 = 5000` ms. -/
theorem c8_retry_delay_formula_witness :
    (Hyperbolic.generateResponse
        (fun _ => { tCheck := 0, tSend := 0, abortedBefore := false,
                    abortedAfter := false, outcome := .http429 (some 5) }) 1 []).retryDelays.head? =
      some (max ((some 5 : Option Nat).getD 0 * 1000) (min (1000 * 2 ^ 1) 10000)) :=
  c8_retry_delay_formula
    (fun _ => { tCheck := 0, tSend := 0, abortedBefore := false,
                abortedAfter := false, outcome := .http429 (some 5) }) 1 [] (some 5)
    (by decide) rfl rfl

/-!  Claim C7. -/

/-- Helper for C7: descending induction on the remaining retry budget.
When every attempt fails with HTTP 429 and the signal never aborts, the
call returns the rate-limit error result after exactly `3 - rc` retries. -/
theorem all429_exhausts (hints : Nat → Option Nat) :
    ∀ (n : Nat) (env : Nat → Hyperbolic.AttemptEnv) (rc : Nat) (w : List Int),
    3 - rc ≤ n →
    (∀ k, (env k).abortedBefore = false) →
    (∀ k, (env k).outcome = Hyperbolic.Outcome.http429 (hints k)) →
    (Hyperbolic.generateResponse env rc w).resp =
      { text := "", error := some "Too many requests. Please wait a moment before trying again." }
    ∧ (Hyperbolic.generateResponse env rc w).retryDelays.length = 3 - rc := by
  intro n
  induction n with
  | zero =>
    intro env rc w hn hab hout
    have hrc : ¬ rc < 3 := by omega
    rw [Hyperbolic.generateResponse.eq_def]
    simp [hab rc, hout rc, hrc]
    omega
  | succ n ih =>
    intro env rc w hn hab hout
    by_cases hrc : rc < 3
    · have := ih env (rc + 1) (((RateWindow.cleanRequestWindow (env rc).tCheck w)
        ++ [(env rc).tSend]).erase (env rc).tSend) (by omega) hab hout
      rw [Hyperbolic.generateResponse.eq_def]
      simp only [hab rc, hout rc, hrc]
      simp [this.1, this.2]
      omega
    · rw [Hyperbolic.generateResponse.eq_def]
      simp [hab rc, hout rc, hrc]
      omega

/-- Claim C7: if every attempt fails with a rate-limit (HTTP 429)
classification, the call retries only while `retryCount < 3` (here
`3 - rc` retries, so at most 3 from the initial call) and then resolves
to the rate-limit error result instead of retrying indefinitely. -/
theorem c7_retry_cap
    (env : Nat → Hyperbolic.AttemptEnv) (rc : Nat) (w : List Int) (hints : Nat → Option Nat)
    (hab : ∀ k, (env k).abortedBefore = false)
    (hout : ∀ k, (env k).outcome = Hyperbolic.Outcome.http429 (hints k)) :
    (Hyperbolic.generateResponse env rc w).resp =
      { text := "", error := some "Too many requests. Please wait a moment before trying again." }
    ∧ (Hyperbolic.generateResponse env rc w).retryDelays.length = 3 - rc :=
  all429_exhausts hints (3 - rc) env rc w (le_refl _) hab hout

/-- Witness for C7: a run from retry count 0 in which every attempt is a
429 without a hint. -/
theorem c7_retry_cap_witness :
    (Hyperbolic.generateResponse
        (fun _ => { tCheck := 0, tSend := 0, abortedBefore := false,
                    abortedAfter := false, outcome := .http429 none }) 0 []).resp =
      { text := "", error := some "Too many requests. Please wait a moment before trying again." }
    ∧ (Hyperbolic.generateResponse
        (fun _ => { tCheck := 0, tSend := 0, abortedBefore := false,
                    abortedAfter := false, outcome := .http429 none }) 0 []).retryDelays.length = 3 - 0 :=
  c7_retry_cap
    (fun _ => { tCheck := 0, tSend := 0, abortedBefore := false,
                abortedAfter := false, outcome := .http429 none }) 0 [] (fun _ => none)
    (fun _ => rfl) (fun _ => rfl)

/-!  Claim C10. -/

/-- Helper for C10: in the part_000 client, every resolution path either
carries no error or carries empty text. -/
theorem hyperbolic_error_empty_text :
    ∀ (n : Nat) (env : Nat → Hyperbolic.AttemptEnv) (rc : Nat) (w : List Int),
    3 - rc ≤ n →
    (Hyperbolic.generateResponse env rc w).resp.error = none
    ∨ (Hyperbolic.generateResponse env rc w).resp.text = "" := by
  intro n
  induction n with
  | zero =>
    intro env rc w hn
    have hrc : ¬ rc < 3 := by omega
    rw [Hyperbolic.generateResponse.eq_def]
    cases hab : (env rc).abortedBefore with
    | true => simp [hab, Hyperbolic.cancelResp]
    | false =>
      cases hout : (env rc).outcome with
      | ok content =>
        cases haft : (env rc).abortedAfter with
        | true => simp [hab, hout, haft, Hyperbolic.cancelResp]
        | false => simp [hab, hout, haft]
      | canceled => simp [hab, hout, Hyperbolic.cancelResp]
      | http429 retryAfter => simp [hab, hout, hrc]
      | otherError => simp [hab, hout]
  | succ n ih =>
    intro env rc w hn
    rw [Hyperbolic.generateResponse.eq_def]
    cases hab : (env rc).abortedBefore with
    | true => simp [hab, Hyperbolic.cancelResp]
    | false =>
      cases hout : (env rc).outcome with
      | ok content =>
        cases haft : (env rc).abortedAfter with
        | true => simp [hab, hout, haft, Hyperbolic.cancelResp]
        | false => simp [hab, hout, haft]
      | canceled => simp [hab, hout, Hyperbolic.cancelResp]
      | http429 retryAfter =>
        by_cases hrc : rc < 3
        · have := ih env (rc + 1) (((RateWindow.cleanRequestWindow (env rc).tCheck w)
            ++ [(env rc).tSend]).erase (env rc).tSend) (by omega)
          simpa [hab, hout, hrc] using this
        · simp [hab, hout, hrc]
      | otherError => simp [hab, hout]

/-- Claim C10: both clients always resolve to a `DialogueResponse` (the
embeddings are total functions), and whenever the `error` field is set
the `text` field is empty, so success and failure are mutually exclusive
at the interface. -/
theorem c10_error_implies_empty_text
    (o : Api.ApiOutcome) (env : Nat → Hyperbolic.AttemptEnv) (rc : Nat) (w : List Int) :
    ((Api.generateResponse o).error = none ∨ (Api.generateResponse o).text = "")
    ∧ ((Hyperbolic.generateResponse env rc w).resp.error = none
       ∨ (Hyperbolic.generateResponse env rc w).resp.text = "") := by
  constructor
  · cases o with
    | ok content => exact Or.inl rfl
    | exn => exact Or.inr rfl
  · exact hyperbolic_error_empty_text (3 - rc) env rc w (le_refl _)

/-!  Claim C9. -/

/-- Claim C9 as stated is false for the `src/lib/api.ts` client: when the
provider responds successfully with the empty string as extracted
content, `generateResponse` resolves with no error field set (and empty
text) — not with a malformed-response failure. -/
theorem c9_counterexample :
    (Api.generateResponse (Api.ApiOutcome.ok "")).error = none := rfl

/-- Claim C9, amended: only the Gemini client variant treats empty
extracted text as a failure — it throws "Empty response from Gemini",
which is classified non-retryable and surfaces as an error result — while
the `src/lib/api.ts` client returns an empty-text response with no error
field set. -/
theorem c9_amended_empty_text
    (env : Nat → Gemini.AttemptEnv) (w : List Int)
    (hab : (env 0).abortedBefore = false)
    (hlate : (env 0).abortedLate = false)
    (hout : (env 0).outcome = Gemini.Outcome.ok "") :
    (Gemini.generateResponse env 0 w).resp =
      { text := "", error := some "Failed to generate response. Please try again." }
    ∧ Api.generateResponse (Api.ApiOutcome.ok "") = { text := "", error := none } := by
  have hret : Gemini.isRetryableError "Empty response from Gemini" = false := by decide
  have hmsg : Gemini.errorMessageFor "Empty response from Gemini" =
      "Failed to generate response. Please try again." := by decide
  constructor
  · rw [Gemini.generateResponse.eq_def]
    simp [hab, hlate, hout, hret, hmsg]
  · rfl

/-- Witness for the amended C9 at a concrete environment. -/
theorem c9_amended_empty_text_witness :
    (Gemini.generateResponse
        (fun _ => { tCheck := 0, tSend := 4, abortedBefore := false,
                    abortedLate := false, outcome := .ok "" }) 0 [2]).resp =
      { text := "", error := some "Failed to generate response. Please try again." }
    ∧ Api.generateResponse (Api.ApiOutcome.ok "") = { text := "", error := none } :=
  c9_amended_empty_text
    (fun _ => { tCheck := 0, tSend := 4, abortedBefore := false,
                abortedLate := false, outcome := .ok "" }) [2] rfl rfl rfl

/-!  Scheduler helper lemmas. -/

/-- Every call in the image of `abortAll` is aborted. -/
theorem mem_abortAll_aborted {d : Scheduler.Call} {l : List Scheduler.Call}
    (h : d ∈ Scheduler.abortAll l) : d.aborted = true := by
  rw [Scheduler.abortAll, List.mem_map] at h
  obtain ⟨c, _, rfl⟩ := h
  rfl

/-- `abortAll` leaves no live call. -/
theorem filter_live_abortAll (l : List Scheduler.Call) :
    (Scheduler.abortAll l).filter (fun c => !c.aborted) = [] := by
  induction l with
  | nil => rfl
  | cons c rest ih =>
    simp only [Scheduler.abortAll, List.map_cons, List.filter_cons] at ih ⊢
    simp [ih]

/-- `resolveCall` only removes the resolved invocation from the pending
set; no branch adds one. -/
theorem resolveCall_pending (s : Scheduler.SchedState) (c : Scheduler.Call)
    (net : Scheduler.NetResult) (now : Int) :
    (Scheduler.resolveCall s c net now).pending = s.pending.erase c := by
  rw [Scheduler.resolveCall]
  repeat' first
    | rfl
    | split
    | dsimp only

/-!  Claim C1. -/

/-- Claim C1 as stated is false: starting from the initial state, letting
the opening Agent1 turn resolve with "A" and then submitting the operator
prompt "B" (a legal submission — nothing is generating) produces the
transcript `[A (agent1), B (agent1)]`, whose consecutive messages share
their agent, because `handlePromptSubmit` appends as Agent1 regardless of
the last message's author. -/
theorem c1_counterexample :
    SpecSide.messagesAlternate Fixtures.afterAB.messages = false
    ∧ Fixtures.afterAB.messages.map Scheduler.Message.agent =
        [Scheduler.Agent.agent1, Scheduler.Agent.agent1] := by
  constructor <;> decide

/-- Claim C1, amended: the alternation rule holds for the scheduler's
automatic turns — `generateNextMessage` always speaks for the agent other
than the author of its previous-message argument, and for Agent1 when
there is none — but not for the whole transcript: `handlePromptSubmit`
appends the operator's text as Agent1 unconditionally, so a submission
right after an Agent1 message yields two consecutive Agent1 messages. -/
theorem c1_amended_turn_ownership
    (s : Scheduler.SchedState) (prev : Option Scheduler.Message) (seedIdx : Nat) :
    Scheduler.nextAgent none = Scheduler.Agent.agent1
    ∧ (∀ m : Scheduler.Message, Scheduler.nextAgent (some m) ≠ m.agent)
    ∧ (s.mounted = true → s.isPaused = false → s.isLoading = false →
       s.generating = false →
       ∃ c rest, (Scheduler.generateNextMessage s prev seedIdx).pending = c :: rest
         ∧ c.agent = Scheduler.nextAgent prev ∧ c.aborted = false) := by
  refine ⟨rfl, ?_, ?_⟩
  · intro m
    cases hm : m.agent <;> simp [Scheduler.nextAgent, hm]
  · intro hm hp hl hg
    rw [Scheduler.generateNextMessage.eq_def]
    simp [hm, hp, hl, hg]

/-- Witness for the amended C1: from the initial state after an Agent1
message, the next call is issued for Agent2. -/
theorem c1_amended_turn_ownership_witness :
    Scheduler.nextAgent none = Scheduler.Agent.agent1
    ∧ (∀ m : Scheduler.Message, Scheduler.nextAgent (some m) ≠ m.agent)
    ∧ (∃ c rest,
        (Scheduler.generateNextMessage Scheduler.initialState
          (some { text := "A", agent := .agent1, timestamp := 1 }) 0).pending = c :: rest
        ∧ c.agent = Scheduler.nextAgent
            (some { text := "A", agent := .agent1, timestamp := 1 })
        ∧ c.aborted = false) :=
  ⟨(c1_amended_turn_ownership Scheduler.initialState
      (some { text := "A", agent := .agent1, timestamp := 1 }) 0).1,
   (c1_amended_turn_ownership Scheduler.initialState
      (some { text := "A", agent := .agent1, timestamp := 1 }) 0).2.1,
   (c1_amended_turn_ownership Scheduler.initialState
      (some { text := "A", agent := .agent1, timestamp := 1 }) 0).2.2 rfl rfl rfl rfl⟩

/-!  Claim C2. -/

/-- Claim C2: while the generating flag is set, invoking
`generateNextMessage` again or submitting a prompt is a no-op; moreover
every scheduler operation preserves "at most one pending invocation is
unaborted", so at most one completion attempt per session is concurrently
unresolved until it resolves or is cancelled. -/
theorem c2_at_most_one_in_flight
    (s : Scheduler.SchedState) (prev : Option Scheduler.Message) (seedIdx : Nat)
    (t : String) (now : Int) (c : Scheduler.Call) (net : Scheduler.NetResult) :
    (s.generating = true →
      Scheduler.generateNextMessage s prev seedIdx = s
      ∧ Scheduler.handlePromptSubmit s t now = s)
    ∧ ((SpecSide.liveCalls s).length ≤ 1 →
        (SpecSide.liveCalls (Scheduler.generateNextMessage s prev seedIdx)).length ≤ 1
        ∧ (SpecSide.liveCalls (Scheduler.handlePromptSubmit s t now)).length ≤ 1
        ∧ (SpecSide.liveCalls (Scheduler.handlePauseToggle s)).length ≤ 1
        ∧ (SpecSide.liveCalls (Scheduler.handleReset s)).length ≤ 1
        ∧ (SpecSide.liveCalls (Scheduler.resolveCall s c net now)).length ≤ 1) := by
  have hgen : ∀ (s' : Scheduler.SchedState) (p : Option Scheduler.Message) (i : Nat),
      (SpecSide.liveCalls s').length ≤ 1 →
      (SpecSide.liveCalls (Scheduler.generateNextMessage s' p i)).length ≤ 1 := by
    intro s' p i h
    rw [Scheduler.generateNextMessage.eq_def]
    split
    · exact h
    · simp [SpecSide.liveCalls, List.filter_cons, filter_live_abortAll]
  constructor
  · intro hg
    constructor
    · rw [Scheduler.generateNextMessage.eq_def]
      simp [hg]
    · rw [Scheduler.handlePromptSubmit]
      simp [hg]
  · intro h
    refine ⟨hgen s prev seedIdx h, ?_, ?_, ?_, ?_⟩
    · rw [Scheduler.handlePromptSubmit]
      split
      · exact h
      · exact hgen _ _ _ (by simp [SpecSide.liveCalls, Scheduler.cleanup, filter_live_abortAll])
    · rw [Scheduler.handlePauseToggle]
      split
      · simp [SpecSide.liveCalls, Scheduler.cleanup, filter_live_abortAll]
      · split <;> exact h
    · rw [Scheduler.handleReset]
      simp [SpecSide.liveCalls, Scheduler.cleanup, filter_live_abortAll]
    · rw [SpecSide.liveCalls, resolveCall_pending]
      calc (List.filter (fun c => !c.aborted) (s.pending.erase c)).length
          ≤ (List.filter (fun c => !c.aborted) s.pending).length :=
            ((List.erase_sublist c s.pending).filter _).length_le
        _ ≤ 1 := h

/-- Witness for C2 at the concrete mid-generation state: both entry
points leave the state untouched and all operations keep at most one
live call. -/
theorem c2_at_most_one_in_flight_witness :
    (Scheduler.generateNextMessage Fixtures.generating1 none 1 = Fixtures.generating1
      ∧ Scheduler.handlePromptSubmit Fixtures.generating1 "x" 3 = Fixtures.generating1)
    ∧ ((SpecSide.liveCalls (Scheduler.generateNextMessage Fixtures.generating1 none 1)).length ≤ 1
        ∧ (SpecSide.liveCalls (Scheduler.handlePromptSubmit Fixtures.generating1 "x" 3)).length ≤ 1
        ∧ (SpecSide.liveCalls (Scheduler.handlePauseToggle Fixtures.generating1)).length ≤ 1
        ∧ (SpecSide.liveCalls (Scheduler.handleReset Fixtures.generating1)).length ≤ 1
        ∧ (SpecSide.liveCalls (Scheduler.resolveCall Fixtures.generating1 Fixtures.call1
            (.ok "A") 1)).length ≤ 1) :=
  ⟨(c2_at_most_one_in_flight Fixtures.generating1 none 1 "x" 3 Fixtures.call1 (.ok "A")).1 rfl,
   (c2_at_most_one_in_flight Fixtures.generating1 none 1 "x" 3 Fixtures.call1 (.ok "A")).2
     (by decide)⟩

/-!  Claim C3. -/

/-- Claim C3: entering the paused state (from an unpaused one) and
resetting both abort every pending invocation, and resolving an aborted
invocation never appends to the transcript — its client resolves to the
cancelled result whatever the network produced, and the scheduler
swallows it.  Together: a call in flight when `pause`/`reset` is invoked
can never contribute a message, even when the network call succeeds with
text. -/
theorem c3_cancellation_discards_stale
    (s : Scheduler.SchedState) (c : Scheduler.Call) (net : Scheduler.NetResult) (now : Int) :
    (s.isPaused = false →
      ∀ d ∈ (Scheduler.handlePauseToggle s).pending, d.aborted = true)
    ∧ (∀ d ∈ (Scheduler.handleReset s).pending, d.aborted = true)
    ∧ (c.aborted = true →
      (Scheduler.resolveCall s c net now).messages = s.messages) := by
  refine ⟨?_, ?_, ?_⟩
  · intro hp d hd
    rw [Scheduler.handlePauseToggle] at hd
    simp only [hp] at hd
    exact mem_abortAll_aborted hd
  · intro d hd
    rw [Scheduler.handleReset] at hd
    exact mem_abortAll_aborted hd
  · intro hc
    rw [Scheduler.resolveCall, Scheduler.clientResult.eq_def]
    simp only [hc]
    repeat' first
      | rfl
      | split
      | dsimp only
      | simp_all

/-- Witness for C3 at the concrete mid-generation state: pausing aborts
the pending opening call, and resolving the aborted call with a
successful network text appends nothing. -/
theorem c3_cancellation_discards_stale_witness :
    (∀ d ∈ (Scheduler.handlePauseToggle Fixtures.generating1).pending, d.aborted = true)
    ∧ (Scheduler.resolveCall Fixtures.generating1 Fixtures.call1Aborted
        (.ok "stale text") 7).messages = Fixtures.generating1.messages :=
  ⟨(c3_cancellation_discards_stale Fixtures.generating1 Fixtures.call1Aborted
      (.ok "stale text") 7).1 rfl,
   (c3_cancellation_discards_stale Fixtures.generating1 Fixtures.call1Aborted
      (.ok "stale text") 7).2.2 rfl⟩

/-!  Claim C4. -/

/-- Claim C4 as stated is false: submitting "Why?" while the opening
Agent1 turn is mid-generation is a no-op — the guard at the top of
`handlePromptSubmit` returns immediately, so the in-flight call is NOT
cancelled (it stays unaborted), "Why?" is NOT appended, and no Agent2
attempt starts. -/
theorem c4_counterexample :
    Scheduler.handlePromptSubmit Fixtures.generating1 "Why?" 9 = Fixtures.generating1
    ∧ Fixtures.generating1.pending.map Scheduler.Call.aborted = [false]
    ∧ Fixtures.generating1.messages = [] := by
  refine ⟨?_, ?_, ?_⟩ <;> decide

/-- Claim C4, amended: submitting `t` while a turn is mid-generation
(generating or loading flag set) is a no-op; the paused flag is never
changed by a submission; and when no call is in flight and the session is
mounted and unpaused, submission clears the armed timer, aborts stale
work, appends `t` as an Agent1 message and immediately starts a
completion attempt for Agent2 with prompt `t`. -/
theorem c4_amended_prompt_submit (s : Scheduler.SchedState) (t : String) (now : Int) :
    ((s.generating = true ∨ s.isLoading = true) →
      Scheduler.handlePromptSubmit s t now = s)
    ∧ (Scheduler.handlePromptSubmit s t now).isPaused = s.isPaused
    ∧ (s.generating = false → s.isLoading = false → s.isPaused = false →
       s.mounted = true →
        (Scheduler.handlePromptSubmit s t now).messages
          = s.messages ++ [{ text := t, agent := .agent1, timestamp := now }]
        ∧ (∃ rest, (Scheduler.handlePromptSubmit s t now).pending
            = { agent := .agent2, prompt := t, persona := s.agent2Persona,
                aborted := false, closurePaused := false } :: rest
            ∧ ∀ d ∈ rest, d.aborted = true)
        ∧ (Scheduler.handlePromptSubmit s t now).timer = none
        ∧ (Scheduler.handlePromptSubmit s t now).generating = true) := by
  refine ⟨?_, ?_, ?_⟩
  · intro h
    rw [Scheduler.handlePromptSubmit]
    rcases h with h | h <;> simp [h]
  · rw [Scheduler.handlePromptSubmit]
    split
    · rfl
    · rw [Scheduler.generateNextMessage.eq_def]
      split
      · rfl
      · rfl
  · intro hg hl hp hm
    rw [Scheduler.handlePromptSubmit]
    simp only [hg, hl, Bool.or_self, if_false]
    rw [Scheduler.generateNextMessage.eq_def]
    simp only [Scheduler.cleanup, hm, hp, hl, Bool.not_true, Bool.false_or]
    refine ⟨rfl, ⟨Scheduler.abortAll (Scheduler.abortAll s.pending), ?_, ?_⟩, rfl, rfl⟩
    · simp [Scheduler.nextAgent, Scheduler.personaOf]
    · intro d hd
      exact mem_abortAll_aborted hd

/-- Witness for the amended C4 at the concrete states: a no-op
mid-generation, and a real submission from the post-resolution state. -/
theorem c4_amended_prompt_submit_witness :
    Scheduler.handlePromptSubmit Fixtures.generating1 "x" 5 = Fixtures.generating1
    ∧ ((Scheduler.handlePromptSubmit Fixtures.afterA "B" 2).messages
        = Fixtures.afterA.messages ++ [{ text := "B", agent := .agent1, timestamp := 2 }]
      ∧ (∃ rest, (Scheduler.handlePromptSubmit Fixtures.afterA "B" 2).pending
          = { agent := .agent2, prompt := "B", persona := Fixtures.afterA.agent2Persona,
              aborted := false, closurePaused := false } :: rest
          ∧ ∀ d ∈ rest, d.aborted = true)
      ∧ (Scheduler.handlePromptSubmit Fixtures.afterA "B" 2).timer = none
      ∧ (Scheduler.handlePromptSubmit Fixtures.afterA "B" 2).generating = true) :=
  ⟨(c4_amended_prompt_submit Fixtures.generating1 "x" 5).1 (Or.inl rfl),
   (c4_amended_prompt_submit Fixtures.afterA "B" 2).2.2 rfl rfl rfl rfl⟩
